import Mathlib

/-!
Shallow embedding of the managed-chatkit backend:
a web relay that persists chat threads and items in two tables
(chat_threads, chat_thread_items), forwards user messages to a
completion endpoint, and issues session credentials.

Sources embedded:
  * src/app/main.py        — request handlers chat, create_session
  * src/app/postgres_store.py — the PostgresStore persistence contract
-/

/-- JSON values as produced by parsing a request or response body.
Numbers are modelled as integers (no claim involves fractional values). -/
inductive Json where
  | null
  | bool (b : Bool)
  | num (n : Int)
  | str (s : String)
  | arr (xs : List Json)
  | obj (fields : List (String × Json))


/-- Python truthiness on a JSON-decoded value: `None`, `False`, `0`, `""`,
`[]` and the empty object are falsy; everything else is truthy.
This is what `if not user_message:` and `if not workflow ...` test. -/
def Json.truthy : Json → Bool
  | .null => false
  | .bool b => b
  | .num n => n != 0
  | .str s => s != ""
  | .arr xs => !xs.isEmpty
  | .obj fs => !fs.isEmpty

/-- `d.get(k)` / `d[k]` on a JSON-decoded value: a field lookup that
yields nothing when the value is not an object or lacks the key
(in Python the raising forms are only used inside a try/except,
whose handler coincides with the `none` branch here). -/
def Json.getField : Json → String → Option Json
  | .obj fs, k => (fs.find? (fun p => p.1 == k)).map (fun p => p.2)
  | _, _ => none

/-- `v[0]`-style indexing on a JSON-decoded value: yields nothing when the
value is not an array or the index is out of range (the Python code only
indexes inside a try/except whose handler coincides with `none`). -/
def Json.getIdx : Json → Nat → Option Json
  | .arr xs, i => xs.get? i
  | _, _ => none

/-- A row of the chat_threads table: id, created_at, title, metadata jsonb. -/
structure ThreadRow where
  id : String
  created_at : Nat
  title : Option String
  metadata : Json


/-- A row of the chat_thread_items table:
id, thread_id, created_at, role, content jsonb, raw jsonb. -/
structure ItemRow where
  id : String
  thread_id : String
  created_at : Nat
  role : String
  content : Json
  raw : Json


/-- The persistent database state: the two tables. -/
structure DB where
  threads : List ThreadRow
  items : List ItemRow


/-- An HTTP response: status code and JSON body. -/
structure HttpResponse where
  status : Nat
  body : Json


/-- `JSONResponse({"error": msg}, status_code=...)` body shape. -/
def errObj (msg : String) : Json :=
  Json.obj [("error", Json.str msg)]

/-! ## PostgresStore (src/app/postgres_store.py) -/

/-- `chatkit.types.ThreadMetadata`: the thread record the store
loads and saves. -/
structure ThreadMetadata where
  id : String
  created_at : Nat
  title : Option String
  metadata : Json


/-- `row["metadata"] or {}` — replace a falsy stored value by the
empty object. -/
def orEmptyObj (j : Json) : Json :=
  if j.truthy then j else Json.obj []

/-- A `chatkit.types.Page`: data plus pagination flags. -/
structure Page (α : Type) where
  data : List α
  has_more : Bool
  after : Option String


/-- `load_thread`: `SELECT id, created_at, title, metadata FROM chat_threads
WHERE id=$1`; raise NotFoundError when no row matches, else build the
ThreadMetadata (with `row["metadata"] or {}`). -/
def load_thread (db : DB) (thread_id : String) : Except String ThreadMetadata :=
  match db.threads.find? (fun r => r.id == thread_id) with
  | none => .error ("Thread " ++ thread_id ++ " not found")
  | some r => .ok ⟨r.id, r.created_at, r.title, orEmptyObj r.metadata⟩

/-- `save_thread`: `INSERT INTO chat_threads (id, created_at, title, metadata)
VALUES ... ON CONFLICT (id) DO UPDATE SET title=EXCLUDED.title,
metadata=EXCLUDED.metadata` with `json.dumps(thread.metadata or {})`. -/
def save_thread (db : DB) (t : ThreadMetadata) : DB :=
  if db.threads.any (fun r => r.id == t.id) then
    { db with threads := db.threads.map (fun r =>
        if r.id == t.id then
          { r with title := t.title, metadata := orEmptyObj t.metadata }
        else r) }
  else
    { db with threads := db.threads ++ [⟨t.id, t.created_at, t.title, orEmptyObj t.metadata⟩] }

/-- `delete_thread_item`: `DELETE FROM chat_thread_items WHERE id=$1` —
the `thread_id` argument is accepted but not used in the query. -/
def delete_thread_item (db : DB) (thread_id : String) (item_id : String) : DB :=
  let _ := thread_id
  { db with items := db.items.filter (fun r => r.id != item_id) }

/-- `ORDER BY created_at ASC` comparison on item rows. -/
def byTimeAsc (a b : ItemRow) : Prop := a.created_at ≤ b.created_at

/-- `ORDER BY created_at DESC` comparison on item rows. -/
def byTimeDesc (a b : ItemRow) : Prop := b.created_at ≤ a.created_at

instance : DecidableRel byTimeAsc := fun a b => Nat.decLe a.created_at b.created_at

instance : DecidableRel byTimeDesc := fun a b => Nat.decLe b.created_at a.created_at

instance : IsTotal ItemRow byTimeAsc := ⟨fun a b => Nat.le_total a.created_at b.created_at⟩

instance : IsTrans ItemRow byTimeAsc := ⟨fun _ _ _ h h' => Nat.le_trans h h'⟩

instance : IsTotal ItemRow byTimeDesc := ⟨fun a b => Nat.le_total b.created_at a.created_at⟩

instance : IsTrans ItemRow byTimeDesc := ⟨fun _ _ _ h h' => Nat.le_trans h' h⟩

/-- `load_thread_items`: `SELECT ... FROM chat_thread_items WHERE thread_id=$1
ORDER BY created_at {direction} LIMIT $2` with
`direction = "DESC" if order == "desc" else "ASC"`; the `after` cursor is
accepted but never used, and the page is returned with
`has_more=False, after=None`. -/
def load_thread_items (db : DB) (thread_id : String) (after : Option String)
    (limit : Nat) (order : String) : Page ItemRow :=
  let _ := after
  let matching := db.items.filter (fun r => r.thread_id == thread_id)
  let sorted :=
    if order == "desc" then List.insertionSort byTimeDesc matching
    else List.insertionSort byTimeAsc matching
  { data := sorted.take limit, has_more := false, after := none }

/-! ## Request handlers (src/app/main.py) -/

/-- The decoded body of a POST /api/chat request, restricted to the two
fields the handler reads. `message` is kept as a raw JSON value (absent
vs present-but-falsy matters); `thread_id` is a string per the declared
HTTP contract when present. -/
structure ChatRequest where
  message : Option Json
  thread_id : Option String


/-- The response of the outbound completion call. -/
structure UpstreamResponse where
  status : Nat
  body : Json


/-- The per-request environment of the chat handler: the generated
uuid4 identifiers, the NOW() timestamps of the three inserts, and the
outbound completion response. -/
structure ChatEnv where
  newThreadId : String
  userItemId : String
  assistantItemId : String
  t1 : Nat
  t2 : Nat
  t3 : Nat
  upstream : UpstreamResponse


/-- `thread_id = body.get("thread_id"); if not thread_id: thread_id =
str(uuid.uuid4())` — a present non-empty string is kept, otherwise a
fresh identifier is generated. -/
def effectiveThreadId (req : ChatRequest) (g : ChatEnv) : String :=
  match req.thread_id with
  | some s => if s == "" then g.newThreadId else s
  | none => g.newThreadId

/-- `INSERT INTO chat_threads (id, created_at, metadata) VALUES
($1, NOW(), '\x7b\x7d'::jsonb) ON CONFLICT (id) DO NOTHING` — the title
column is not listed so it defaults to NULL. -/
def insertThreadDoNothing (db : DB) (tid : String) (now : Nat) : DB :=
  if db.threads.any (fun r => r.id == tid) then db
  else { db with threads := db.threads ++ [⟨tid, now, none, Json.obj []⟩] }

/-- A plain `INSERT INTO chat_thread_items (id, thread_id, created_at,
role, content, raw) VALUES (...)`. -/
def insertItem (db : DB) (iid tid : String) (now : Nat) (role : String)
    (content raw : Json) : DB :=
  { db with items := db.items ++ [⟨iid, tid, now, role, content, raw⟩] }

/-- `result["output"][0]["content"][0]["text"]` inside try/except:
the extraction of the assistant text from the completion envelope. -/
def extractAssistantText (j : Json) : Option Json :=
  ((((j.getField "output").bind (fun o => o.getIdx 0)).bind
      (fun o => o.getField "content")).bind (fun c => c.getIdx 0)).bind
    (fun c => c.getField "text")

/-- The POST /api/chat handler: validate the message, resolve the thread
identifier, insert the thread row (on-conflict-do-nothing) and the user
item, call the completion endpoint, and on success extract and persist
the assistant reply. Returns the HTTP response and the database state
after the request. -/
def chat (db : DB) (req : ChatRequest) (g : ChatEnv) : HttpResponse × DB :=
  match req.message with
  | none => (⟨400, errObj "Missing message"⟩, db)
  | some m =>
    if !m.truthy then (⟨400, errObj "Missing message"⟩, db)
    else
      let tid := effectiveThreadId req g
      let db1 := insertThreadDoNothing db tid g.t1
      let db2 := insertItem db1 g.userItemId tid g.t2 "user"
        (Json.obj [("text", m)]) (Json.obj [("text", m)])
      if g.upstream.status ≠ 200 then
        (⟨500, errObj "OpenAI request failed"⟩, db2)
      else
        match extractAssistantText g.upstream.body with
        | none => (⟨500, errObj "Unexpected OpenAI response format"⟩, db2)
        | some txt =>
          let db3 := insertItem db2 g.assistantItemId tid g.t3 "assistant"
            (Json.obj [("text", txt)]) g.upstream.body
          (⟨200, Json.obj [("thread_id", Json.str tid), ("reply", txt)]⟩, db3)

/-- The decoded body of a POST /api/create-session request: the
`workflow` field, an object per the declared HTTP contract when present. -/
structure SessionRequest where
  workflow : Option Json


/-- The POST /api/create-session handler: `if not workflow or not
workflow.get("id")` → 400; non-200 upstream → 500; otherwise the handler
returns `{"client_secret": OPENAI_API_KEY}` — the raw environment
credential, not a token from the session-issuance call. -/
def create_session (apiKey : String) (req : SessionRequest)
    (upstreamStatus : Nat) : HttpResponse :=
  match req.workflow with
  | none => ⟨400, errObj "Missing workflow id"⟩
  | some w =>
    if !w.truthy then ⟨400, errObj "Missing workflow id"⟩
    else
      match w.getField "id" with
      | none => ⟨400, errObj "Missing workflow id"⟩
      | some idv =>
        if !idv.truthy then ⟨400, errObj "Missing workflow id"⟩
        else if upstreamStatus ≠ 200 then
          ⟨500, errObj "Failed to create OpenAI session"⟩
        else ⟨200, Json.obj [("client_secret", Json.str apiKey)]⟩

/-! ## Helper lemmas -/

/-- The on-conflict-do-nothing thread insert never touches the items table. -/
theorem insertThreadDoNothing_items (db : DB) (tid : String) (now : Nat) :
    (insertThreadDoNothing db tid now).items = db.items := by
  unfold insertThreadDoNothing
  split <;> rfl

/-- After the on-conflict-do-nothing insert, a row with the requested
identifier is present. -/
theorem insertThreadDoNothing_mem_id (db : DB) (tid : String) (now : Nat) :
    ∃ r ∈ (insertThreadDoNothing db tid now).threads, r.id = tid := by
  unfold insertThreadDoNothing
  by_cases h : db.threads.any (fun r => r.id == tid) = true
  · rw [if_pos h]
    obtain ⟨r, hr, hb⟩ := List.any_eq_true.mp h
    exact ⟨r, hr, by simpa using hb⟩
  · rw [if_neg h]
    exact ⟨⟨tid, now, none, Json.obj []⟩, by simp, rfl⟩

/-- When a row with the identifier already exists, the
on-conflict-do-nothing insert leaves the database unchanged. -/
theorem insertThreadDoNothing_of_mem (db : DB) (tid : String) (now : Nat)
    (hex : ∃ r ∈ db.threads, r.id = tid) :
    insertThreadDoNothing db tid now = db := by
  obtain ⟨r, hr, hid⟩ := hex
  unfold insertThreadDoNothing
  rw [if_pos (List.any_eq_true.mpr ⟨r, hr, by simpa using hid⟩)]

/-- When the body carries a non-empty thread_id string, the handler uses it. -/
theorem effectiveThreadId_of_some (req : ChatRequest) (g : ChatEnv) (s : String)
    (hs : req.thread_id = some s) (hne : s ≠ "") :
    effectiveThreadId req g = s := by
  simp [effectiveThreadId, hs, hne]

/-- Shape of the chat handler's result when the upstream completion call
returns a non-200 status (given a truthy message). -/
theorem chat_eq_of_upstream_fail (db : DB) (req : ChatRequest) (g : ChatEnv)
    (m : Json) (hm : req.message = some m) (htr : m.truthy = true)
    (hs : g.upstream.status ≠ 200) :
    chat db req g = (⟨500, errObj "OpenAI request failed"⟩,
      insertItem (insertThreadDoNothing db (effectiveThreadId req g) g.t1)
        g.userItemId (effectiveThreadId req g) g.t2 "user"
        (Json.obj [("text", m)]) (Json.obj [("text", m)])) := by
  simp [chat, hm, htr, hs]

/-- Shape of the chat handler's result when the upstream call succeeds
but its body lacks the nested reply field (given a truthy message). -/
theorem chat_eq_of_bad_envelope (db : DB) (req : ChatRequest) (g : ChatEnv)
    (m : Json) (hm : req.message = some m) (htr : m.truthy = true)
    (hs : g.upstream.status = 200)
    (he : extractAssistantText g.upstream.body = none) :
    chat db req g = (⟨500, errObj "Unexpected OpenAI response format"⟩,
      insertItem (insertThreadDoNothing db (effectiveThreadId req g) g.t1)
        g.userItemId (effectiveThreadId req g) g.t2 "user"
        (Json.obj [("text", m)]) (Json.obj [("text", m)])) := by
  simp [chat, hm, htr, hs, he]

/-- Shape of the chat handler's result on full success (given a truthy
message and a well-shaped upstream envelope). -/
theorem chat_eq_of_success (db : DB) (req : ChatRequest) (g : ChatEnv)
    (m txt : Json) (hm : req.message = some m) (htr : m.truthy = true)
    (hs : g.upstream.status = 200)
    (he : extractAssistantText g.upstream.body = some txt) :
    chat db req g =
      (⟨200, Json.obj [("thread_id", Json.str (effectiveThreadId req g)),
          ("reply", txt)]⟩,
        insertItem
          (insertItem (insertThreadDoNothing db (effectiveThreadId req g) g.t1)
            g.userItemId (effectiveThreadId req g) g.t2 "user"
            (Json.obj [("text", m)]) (Json.obj [("text", m)]))
          g.assistantItemId (effectiveThreadId req g) g.t3 "assistant"
          (Json.obj [("text", txt)]) g.upstream.body) := by
  simp [chat, hm, htr, hs, he]

/-! ## Claim theorems -/

/-- C1: the claim says a successful create-session response carries a
session credential from the session-issuance call and never the raw
long-lived API key. The code violates it: on a well-formed request with
a successful upstream call, the handler returns the raw environment
credential verbatim as `client_secret`. -/
theorem create_session_returns_raw_api_key :
    create_session "sk-live-root-credential"
        ⟨some (Json.obj [("id", Json.str "wf_12345")])⟩ 200
      = ⟨200, Json.obj [("client_secret", Json.str "sk-live-root-credential")]⟩ :=
  rfl

/-- C7: when the message field is absent, the chat handler answers 400
with body error "Missing message", leaves the database unchanged, and the
result does not depend on the request environment at all (so no outbound
call and no write can influence or be influenced by it), whatever the
other fields hold. -/
theorem chat_missing_message_400 (db : DB) (tidOpt : Option String)
    (g : ChatEnv) :
    chat db ⟨none, tidOpt⟩ g = (⟨400, errObj "Missing message"⟩, db) :=
  rfl

/-- C10: a message field that is present but falsy (empty string, null,
false, zero, empty array or object) is handled exactly like an absent
one: 400 with "Missing message", database unchanged, environment unused. -/
theorem chat_falsy_message_400 (db : DB) (v : Json) (tidOpt : Option String)
    (g : ChatEnv) (hv : v.truthy = false) :
    chat db ⟨some v, tidOpt⟩ g = (⟨400, errObj "Missing message"⟩, db) := by
  simp [chat, hv]

/-- Witness for C10 at the concrete falsy values null and "". -/
theorem chat_falsy_message_400_witness :
    chat ⟨[], []⟩ ⟨some Json.null, none⟩
        ⟨"T", "U", "A", 1, 2, 3, ⟨200, Json.null⟩⟩
      = (⟨400, errObj "Missing message"⟩, ⟨[], []⟩) ∧
    chat ⟨[], []⟩ ⟨some (Json.str ""), some "t9"⟩
        ⟨"T", "U", "A", 1, 2, 3, ⟨200, Json.null⟩⟩
      = (⟨400, errObj "Missing message"⟩, ⟨[], []⟩) :=
  ⟨chat_falsy_message_400 ⟨[], []⟩ Json.null none
      ⟨"T", "U", "A", 1, 2, 3, ⟨200, Json.null⟩⟩ rfl,
    chat_falsy_message_400 ⟨[], []⟩ (Json.str "") (some "t9")
      ⟨"T", "U", "A", 1, 2, 3, ⟨200, Json.null⟩⟩ rfl⟩

/-- C2: on a truthy message and a non-200 upstream completion status the
handler answers 500 ("OpenAI request failed"), a thread row with the
resolved identifier is present, the items table has gained exactly the
user-role item, and no assistant-role item was written. -/
theorem chat_upstream_failure_partial_write (db : DB) (req : ChatRequest)
    (g : ChatEnv) (m : Json) (hm : req.message = some m)
    (htr : m.truthy = true) (hs : g.upstream.status ≠ 200) :
    (chat db req g).1 = ⟨500, errObj "OpenAI request failed"⟩ ∧
    (∃ r ∈ (chat db req g).2.threads, r.id = effectiveThreadId req g) ∧
    (chat db req g).2.items = db.items ++
      [⟨g.userItemId, effectiveThreadId req g, g.t2, "user",
        Json.obj [("text", m)], Json.obj [("text", m)]⟩] ∧
    ∀ it ∈ (chat db req g).2.items, it.role = "assistant" → it ∈ db.items := by
  rw [chat_eq_of_upstream_fail db req g m hm htr hs]
  refine ⟨rfl, insertThreadDoNothing_mem_id db _ g.t1, ?_, ?_⟩
  · simp [insertItem, insertThreadDoNothing_items]
  · intro it hit hrole
    simp only [insertItem, insertThreadDoNothing_items, List.mem_append,
      List.mem_singleton] at hit
    rcases hit with h | h
    · exact h
    · subst h
      simp at hrole

/-- Witness for C2: concrete request, upstream status 503. -/
theorem chat_upstream_failure_partial_write_witness :
    (chat ⟨[], []⟩ ⟨some (Json.str "hi"), none⟩
        ⟨"T", "U", "A", 1, 2, 3, ⟨503, Json.null⟩⟩).1
      = ⟨500, errObj "OpenAI request failed"⟩ :=
  (chat_upstream_failure_partial_write ⟨[], []⟩ ⟨some (Json.str "hi"), none⟩
    ⟨"T", "U", "A", 1, 2, 3, ⟨503, Json.null⟩⟩ (Json.str "hi")
    rfl rfl (by decide)).1

/-- C3: on a truthy message, upstream status 200, and an upstream body
lacking the nested field output[0].content[0].text, the handler answers
500 ("Unexpected OpenAI response format") — no fallback string — the
items table has gained exactly the user-role item, and no assistant-role
item was persisted. -/
theorem chat_bad_envelope_no_assistant_item (db : DB) (req : ChatRequest)
    (g : ChatEnv) (m : Json) (hm : req.message = some m)
    (htr : m.truthy = true) (hs : g.upstream.status = 200)
    (he : extractAssistantText g.upstream.body = none) :
    (chat db req g).1 = ⟨500, errObj "Unexpected OpenAI response format"⟩ ∧
    (chat db req g).2.items = db.items ++
      [⟨g.userItemId, effectiveThreadId req g, g.t2, "user",
        Json.obj [("text", m)], Json.obj [("text", m)]⟩] ∧
    ∀ it ∈ (chat db req g).2.items, it.role = "assistant" → it ∈ db.items := by
  rw [chat_eq_of_bad_envelope db req g m hm htr hs he]
  refine ⟨rfl, ?_, ?_⟩
  · simp [insertItem, insertThreadDoNothing_items]
  · intro it hit hrole
    simp only [insertItem, insertThreadDoNothing_items, List.mem_append,
      List.mem_singleton] at hit
    rcases hit with h | h
    · exact h
    · subst h
      simp at hrole

/-- Witness for C3: upstream 200 with an empty-object body. -/
theorem chat_bad_envelope_no_assistant_item_witness :
    (chat ⟨[], []⟩ ⟨some (Json.str "hi"), none⟩
        ⟨"T", "U", "A", 1, 2, 3, ⟨200, Json.obj []⟩⟩).1
      = ⟨500, errObj "Unexpected OpenAI response format"⟩ :=
  (chat_bad_envelope_no_assistant_item ⟨[], []⟩ ⟨some (Json.str "hi"), none⟩
    ⟨"T", "U", "A", 1, 2, 3, ⟨200, Json.obj []⟩⟩ (Json.str "hi")
    rfl rfl rfl rfl).1

/-- C8: whatever the outcome of the turn, a chat request naming an
existing thread never creates a second thread row, leaves every column
of every existing thread row unchanged, and only appends item rows, all
belonging to that thread. -/
theorem chat_existing_thread_no_duplicate (db : DB) (req : ChatRequest)
    (g : ChatEnv) (s : String) (hs : req.thread_id = some s) (hne : s ≠ "")
    (hex : ∃ r ∈ db.threads, r.id = s) :
    (chat db req g).2.threads = db.threads ∧
    ∃ new, (chat db req g).2.items = db.items ++ new ∧
      ∀ it ∈ new, it.thread_id = s := by
  have htid : effectiveThreadId req g = s := effectiveThreadId_of_some req g s hs hne
  have hins : insertThreadDoNothing db s g.t1 = db :=
    insertThreadDoNothing_of_mem db s g.t1 hex
  cases hm : req.message with
  | none =>
    refine ⟨?_, [], ?_, ?_⟩ <;> simp [chat, hm]
  | some m =>
    by_cases htr : m.truthy = true
    · by_cases hst : g.upstream.status = 200
      · cases he : extractAssistantText g.upstream.body with
        | none =>
          rw [chat_eq_of_bad_envelope db req g m hm htr hst he, htid, hins]
          exact ⟨rfl, [⟨g.userItemId, s, g.t2, "user",
            Json.obj [("text", m)], Json.obj [("text", m)]⟩], rfl, by simp⟩
        | some txt =>
          rw [chat_eq_of_success db req g m txt hm htr hst he, htid, hins]
          refine ⟨rfl, [⟨g.userItemId, s, g.t2, "user",
              Json.obj [("text", m)], Json.obj [("text", m)]⟩,
            ⟨g.assistantItemId, s, g.t3, "assistant",
              Json.obj [("text", txt)], g.upstream.body⟩], ?_, by simp⟩
          simp [insertItem]
      · rw [chat_eq_of_upstream_fail db req g m hm htr hst, htid, hins]
        exact ⟨rfl, [⟨g.userItemId, s, g.t2, "user",
          Json.obj [("text", m)], Json.obj [("text", m)]⟩], rfl, by simp⟩
    · have htr' : m.truthy = false := by
        cases hb : m.truthy with
        | false => rfl
        | true => exact absurd hb htr
      refine ⟨?_, [], ?_, ?_⟩ <;> simp [chat, hm, htr']

/-- Witness for C8: re-posting to the existing thread t1 leaves the
thread table exactly as it was. -/
theorem chat_existing_thread_no_duplicate_witness :
    (chat ⟨[⟨"t1", 10, none, Json.obj []⟩], []⟩
        ⟨some (Json.str "hi"), some "t1"⟩
        ⟨"T", "U", "A", 1, 2, 3, ⟨503, Json.null⟩⟩).2.threads
      = [⟨"t1", 10, none, Json.obj []⟩] :=
  (chat_existing_thread_no_duplicate ⟨[⟨"t1", 10, none, Json.obj []⟩], []⟩
    ⟨some (Json.str "hi"), some "t1"⟩ ⟨"T", "U", "A", 1, 2, 3, ⟨503, Json.null⟩⟩
    "t1" rfl (by decide)
    ⟨⟨"t1", 10, none, Json.obj []⟩, List.mem_singleton_self _, rfl⟩).1

/-- C4: save_thread is a total upsert keyed by the thread identifier:
with no matching row it appends a fresh row; with a matching row it
rewrites only the title and metadata columns, keeping the stored
creation timestamp, touches no other row, adds no row, and never
touches the items table. -/
theorem save_thread_upsert_frame (db : DB) (t : ThreadMetadata) :
    ((∀ r ∈ db.threads, r.id ≠ t.id) →
      (save_thread db t).threads
        = db.threads ++ [⟨t.id, t.created_at, t.title, orEmptyObj t.metadata⟩]) ∧
    (∀ r ∈ db.threads, r.id = t.id →
      ({ r with title := t.title, metadata := orEmptyObj t.metadata } : ThreadRow)
        ∈ (save_thread db t).threads) ∧
    (∀ r ∈ db.threads, r.id ≠ t.id → r ∈ (save_thread db t).threads) ∧
    ((∃ r ∈ db.threads, r.id = t.id) →
      (save_thread db t).threads.length = db.threads.length) ∧
    (save_thread db t).items = db.items := by
  by_cases h : db.threads.any (fun r => r.id == t.id) = true
  · unfold save_thread
    rw [if_pos h]
    refine ⟨?_, ?_, ?_, ?_, rfl⟩
    · intro hall
      obtain ⟨r, hr, hb⟩ := List.any_eq_true.mp h
      exact absurd (by simpa using hb) (hall r hr)
    · intro r hr hid
      have hfr : (fun r : ThreadRow => if r.id == t.id then
            ({ r with title := t.title, metadata := orEmptyObj t.metadata } : ThreadRow)
          else r) r
          = { r with title := t.title, metadata := orEmptyObj t.metadata } := by
        simp [hid]
      exact hfr ▸ List.mem_map_of_mem _ hr
    · intro r hr hid
      have hfr : (fun r : ThreadRow => if r.id == t.id then
            ({ r with title := t.title, metadata := orEmptyObj t.metadata } : ThreadRow)
          else r) r = r := by
        simp [hid]
      exact hfr ▸ List.mem_map_of_mem _ hr
    · intro _
      simp
  · unfold save_thread
    rw [if_neg h]
    refine ⟨fun _ => rfl, ?_, ?_, ?_, rfl⟩
    · intro r hr hid
      exact absurd (List.any_eq_true.mpr ⟨r, hr, by simpa using hid⟩) h
    · intro r hr _
      exact List.mem_append_left _ hr
    · rintro ⟨r, hr, hid⟩
      exact absurd (List.any_eq_true.mpr ⟨r, hr, by simpa using hid⟩) h

/-- Witness for C4: re-saving thread t1 with a new title, new metadata
and a different creation timestamp (99) yields a row that keeps the
stored timestamp 10. -/
theorem save_thread_upsert_frame_witness :
    (⟨"t1", 10, some "new title", Json.obj [("k", Json.num 1)]⟩ : ThreadRow)
      ∈ (save_thread ⟨[⟨"t1", 10, none, Json.obj []⟩], []⟩
          ⟨"t1", 99, some "new title", Json.obj [("k", Json.num 1)]⟩).threads :=
  (save_thread_upsert_frame ⟨[⟨"t1", 10, none, Json.obj []⟩], []⟩
    ⟨"t1", 99, some "new title", Json.obj [("k", Json.num 1)]⟩).2.1
    ⟨"t1", 10, none, Json.obj []⟩ (List.mem_singleton_self _) rfl

/-- With pairwise-distinct thread identifiers, the row lookup finds
exactly the matching row. -/
theorem find_thread_of_mem (l : List ThreadRow) (tid : String)
    (hnd : l.Pairwise (fun a b => a.id ≠ b.id)) (r : ThreadRow)
    (hr : r ∈ l) (hid : r.id = tid) :
    l.find? (fun x => x.id == tid) = some r := by
  induction l with
  | nil => cases hr
  | cons a l ih =>
    have hpair := List.pairwise_cons.mp hnd
    rcases List.mem_cons.mp hr with h | h
    · subst h
      exact List.find?_cons_of_pos _ (by simpa using hid)
    · have hane : a.id ≠ tid := hid ▸ hpair.1 r h
      rw [List.find?_cons_of_neg _ (by simpa using hane)]
      exact ih hpair.2 h

/-- C6: with the thread identifiers unique (they are the table's
conflict key), load_thread returns the stored row — identifier,
creation timestamp, title and (null-normalised) metadata — whenever a
row with the identifier exists, and signals the NotFound condition
exactly when no row matches. -/
theorem load_thread_found_iff (db : DB) (tid : String)
    (hnd : db.threads.Pairwise (fun a b => a.id ≠ b.id)) :
    (∀ r ∈ db.threads, r.id = tid →
      load_thread db tid
        = .ok ⟨r.id, r.created_at, r.title, orEmptyObj r.metadata⟩) ∧
    (load_thread db tid = .error ("Thread " ++ tid ++ " not found")
      ↔ ¬ ∃ r ∈ db.threads, r.id = tid) := by
  constructor
  · intro r hr hid
    unfold load_thread
    rw [find_thread_of_mem db.threads tid hnd r hr hid]
  · constructor
    · intro he
      rintro ⟨r, hr, hid⟩
      rw [show load_thread db tid
            = .ok ⟨r.id, r.created_at, r.title, orEmptyObj r.metadata⟩ from by
          unfold load_thread
          rw [find_thread_of_mem db.threads tid hnd r hr hid]] at he
      exact Except.noConfusion he
    · intro hno
      unfold load_thread
      rw [List.find?_eq_none.mpr
        (fun x hx hbx => hno ⟨x, hx, by simpa using hbx⟩)]

/-- Witness for C6: a one-row table, looked up at its own identifier. -/
theorem load_thread_found_iff_witness :
    load_thread ⟨[⟨"t1", 10, none, Json.obj []⟩], []⟩ "t1"
      = .ok ⟨"t1", 10, none, Json.obj []⟩ :=
  (load_thread_found_iff ⟨[⟨"t1", 10, none, Json.obj []⟩], []⟩ "t1"
    (List.pairwise_singleton _ _)).1
    ⟨"t1", 10, none, Json.obj []⟩ (List.mem_singleton_self _) rfl

/-- C5: load_thread_items returns at most `limit` rows, all of the
requested thread, sorted by creation timestamp (ascending unless order
is "desc", descending when it is), and the page always reports
has_more false with no continuation cursor, whatever `after` was. -/
theorem load_thread_items_page (db : DB) (tid : String) (after : Option String)
    (limit : Nat) (order : String) :
    (load_thread_items db tid after limit order).data.length ≤ limit ∧
    (∀ it ∈ (load_thread_items db tid after limit order).data,
      it.thread_id = tid) ∧
    (order ≠ "desc" →
      (load_thread_items db tid after limit order).data.Pairwise byTimeAsc) ∧
    (order = "desc" →
      (load_thread_items db tid after limit order).data.Pairwise byTimeDesc) ∧
    (load_thread_items db tid after limit order).has_more = false ∧
    (load_thread_items db tid after limit order).after = none := by
  by_cases ho : order = "desc"
  · have hdata : (load_thread_items db tid after limit order).data
        = (List.insertionSort byTimeDesc
            (db.items.filter (fun r => r.thread_id == tid))).take limit := by
      simp [load_thread_items, ho]
    refine ⟨?_, ?_, fun hne => absurd ho hne, fun _ => ?_, rfl, rfl⟩
    · rw [hdata, List.length_take]
      exact Nat.min_le_left _ _
    · intro it hit
      rw [hdata] at hit
      have h2 := (List.perm_insertionSort byTimeDesc _).mem_iff.mp
        (List.mem_of_mem_take hit)
      simpa using (List.mem_filter.mp h2).2
    · rw [hdata]
      exact List.Pairwise.sublist (List.take_sublist _ _)
        (List.sorted_insertionSort byTimeDesc _)
  · have hne : (order == "desc") = false := beq_eq_false_iff_ne.mpr ho
    have hdata : (load_thread_items db tid after limit order).data
        = (List.insertionSort byTimeAsc
            (db.items.filter (fun r => r.thread_id == tid))).take limit := by
      simp [load_thread_items, hne]
    refine ⟨?_, ?_, fun _ => ?_, fun hd => absurd hd ho, rfl, rfl⟩
    · rw [hdata, List.length_take]
      exact Nat.min_le_left _ _
    · intro it hit
      rw [hdata] at hit
      have h2 := (List.perm_insertionSort byTimeAsc _).mem_iff.mp
        (List.mem_of_mem_take hit)
      simpa using (List.mem_filter.mp h2).2
    · rw [hdata]
      exact List.Pairwise.sublist (List.take_sublist _ _)
        (List.sorted_insertionSort byTimeAsc _)

/-- Witness for C5: a two-item thread queried ascending with a cursor
that the implementation ignores. -/
theorem load_thread_items_page_witness :
    (load_thread_items ⟨[], [⟨"i1", "t1", 5, "user", Json.obj [], Json.obj []⟩,
        ⟨"i2", "t1", 3, "user", Json.obj [], Json.obj []⟩]⟩
      "t1" (some "cursor") 7 "asc").data.Pairwise byTimeAsc :=
  (load_thread_items_page ⟨[], [⟨"i1", "t1", 5, "user", Json.obj [], Json.obj []⟩,
      ⟨"i2", "t1", 3, "user", Json.obj [], Json.obj []⟩]⟩
    "t1" (some "cursor") 7 "asc").2.2.1 (by decide)

/-- C9: delete_thread_item removes exactly the rows whose identifier is
the given item identifier — with no regard for the thread argument: the
result is the same for any two thread arguments, a matching item in any
thread is removed, non-matching items and the thread table are
untouched. -/
theorem delete_thread_item_ignores_thread (db : DB) (tid tid2 iid : String) :
    delete_thread_item db tid iid = delete_thread_item db tid2 iid ∧
    (∀ r ∈ db.items, r.id = iid →
      r ∉ (delete_thread_item db tid iid).items) ∧
    (∀ r ∈ db.items, r.id ≠ iid →
      r ∈ (delete_thread_item db tid iid).items) ∧
    (delete_thread_item db tid iid).threads = db.threads := by
  refine ⟨rfl, ?_, ?_, rfl⟩
  · intro r _ hid hmem
    have hb := (List.mem_filter.mp hmem).2
    simp [hid] at hb
  · intro r hr hid
    exact List.mem_filter.mpr ⟨hr, by simpa using hid⟩

/-- Witness for C9: item i2 lives in thread t2, yet the call naming
thread t1 removes it. -/
theorem delete_thread_item_ignores_thread_witness :
    (⟨"i2", "t2", 3, "user", Json.obj [], Json.obj []⟩ : ItemRow)
      ∉ (delete_thread_item
          ⟨[], [⟨"i1", "t1", 5, "user", Json.obj [], Json.obj []⟩,
            ⟨"i2", "t2", 3, "user", Json.obj [], Json.obj []⟩]⟩
          "t1" "i2").items :=
  (delete_thread_item_ignores_thread
    ⟨[], [⟨"i1", "t1", 5, "user", Json.obj [], Json.obj []⟩,
      ⟨"i2", "t2", 3, "user", Json.obj [], Json.obj []⟩]⟩ "t1" "t1" "i2").2.1
    ⟨"i2", "t2", 3, "user", Json.obj [], Json.obj []⟩
    (List.mem_cons_of_mem _ (List.mem_singleton_self _)) rfl

